import Mathlib

/-!
Shallow embedding of the Airtable proxy worker of the wedding RSVP
application (routes POST /verify-name, POST /rsvp, GET /guests,
GET /guests/family/:familyId), translated from the current worker
implementation.  Backing-store interactions are modelled by an oracle
function from calls to responses; record fields are association lists of
JSON-like values.
-/

/-- A JSON-like value held in a backing-store record field. -/
inductive AValue where
  | str (s : String)
  | bool (b : Bool)
  | links (ids : List String)
  | null
  deriving DecidableEq, Repr

/-- A backing-store record: an opaque identifier plus named fields. -/
structure ARecord where
  id : String
  fields : List (String × AValue)
  deriving DecidableEq, Repr

/-- First-match lookup of a field by name in an association list. -/
def lookupField : List (String × AValue) → String → Option AValue
  | [], _ => none
  | (k, v) :: rest, key => if k = key then some v else lookupField rest key

/-- JS idiom `(fields[k] as string) || undefined`: a present, non-empty
string is kept; null, absence, the empty string and non-strings give
undefined. -/
def getStr (fs : List (String × AValue)) (k : String) : Option String :=
  match lookupField fs k with
  | some (AValue.str s) => if s = "" then none else some s
  | _ => none

/-- JS idiom `(fields[k] as boolean) ?? d`: a present boolean is kept;
null or absence gives the default. -/
def getBool (fs : List (String × AValue)) (k : String) (d : Bool) : Bool :=
  match lookupField fs k with
  | some (AValue.bool b) => b
  | _ => d

/-- JS idiom `fields[k] as string[] | undefined` for linked-record
fields. -/
def getLinks (fs : List (String × AValue)) (k : String) : Option (List String) :=
  match lookupField fs k with
  | some (AValue.links l) => some l
  | _ => none

/-- The client-facing Guest shape produced by the worker. -/
structure Guest where
  id : String
  name : String
  surname : Option String
  familyId : Option String
  attending : Bool
  email : Option String
  phone : Option String
  dietaryRestrictions : Option String
  notes : Option String
  submittedAt : Option String
  szertartas : Bool
  lakodalom : Bool
  transfer : Bool
  deriving DecidableEq, Repr

/-- `mapAirtableRecord` of the worker: reshapes a raw store record into
the client-facing Guest, applying the documented defaults. -/
def mapAirtableRecord (r : ARecord) : Guest :=
  { id := r.id
    name := ((getStr r.fields "Full name").orElse (fun _ => getStr r.fields "Name")).getD ""
    surname := getStr r.fields "Surname"
    familyId := getStr r.fields "Family ID"
    attending := getBool r.fields "Attending" true
    email := getStr r.fields "Email"
    phone := getStr r.fields "Phone"
    dietaryRestrictions := getStr r.fields "Dietary Restrictions"
    notes := getStr r.fields "Notes"
    submittedAt := getStr r.fields "Submitted At"
    szertartas := getBool r.fields "Szertartas" false
    lakodalom := getBool r.fields "Lakodalom" false
    transfer := getBool r.fields "Transfer" false }

def TABLE_NAME : String := "Guests"

def FAMILIES_TABLE_NAME : String := "Families"

/-- Leading and trailing whitespace removal on a character list. -/
def trimChars (l : List Char) : List Char :=
  ((l.dropWhile Char.isWhitespace).reverse.dropWhile Char.isWhitespace).reverse

/-- Model of JS String.prototype.trim. -/
def jsTrim (s : String) : String := String.mk (trimChars s.data)

/-- JS `replace(/"/g, twoQuotes)` on the character list: every double
quote is doubled. -/
def escQuotes : List Char → List Char
  | [] => []
  | c :: rest => if c = '"' then '"' :: '"' :: escQuotes rest else c :: escQuotes rest

/-- `const escapedName = name.trim().replace(/"/g, doubled)` of the
verify-name handler. -/
def escapedName (name : String) : String :=
  String.mk (escQuotes (jsTrim name).data)

/-- The filterByFormula string the verify-name handler builds. -/
def verifyFilterFormula (name : String) : String :=
  "LOWER(\x7bFull name\x7d) = LOWER(\"" ++ escapedName name ++ "\")"

/-- Unreserved characters of encodeURIComponent. -/
def uriUnreserved (c : Char) : Bool :=
  c.isAlphanum || c = '-' || c = '_' || c = '.' || c = '!' || c = '~' ||
    c = '*' || c = Char.ofNat 39 || c = '(' || c = ')'

/-- UTF-8 bytes of a character, as plain naturals. -/
def utf8Bytes (c : Char) : List Nat :=
  let n := c.toNat
  if n < 128 then [n]
  else if n < 2048 then [192 + n / 64, 128 + n % 64]
  else if n < 65536 then [224 + n / 4096, 128 + (n / 64) % 64, 128 + n % 64]
  else [240 + n / 262144, 128 + (n / 4096) % 64, 128 + (n / 64) % 64, 128 + n % 64]

def hexDigitChar (n : Nat) : Char :=
  if n < 10 then Char.ofNat (48 + n) else Char.ofNat (55 + n)

def percentEncode (n : Nat) : List Char :=
  [Char.ofNat 37, hexDigitChar (n / 16), hexDigitChar (n % 16)]

/-- Model of the JS global encodeURIComponent. -/
def encodeURIComponent (s : String) : String :=
  String.mk (s.data.foldr
    (fun c acc =>
      (if uriUnreserved c then [c]
       else (utf8Bytes c).foldr (fun b a => percentEncode b ++ a) []) ++ acc)
    [])

/-- The search endpoint the verify-name handler requests first. -/
def verifySearchUrl (name : String) : String :=
  TABLE_NAME ++ "?filterByFormula=" ++ encodeURIComponent (verifyFilterFormula name)

/-- One per-identifier equality predicate of the batched member fetch. -/
def recordIdFilter (id : String) : String :=
  "RECORD_ID() = \"" ++ id ++ "\""

/-- The OR() filter of the batched member fetch. -/
def guestFilter (memberIds : List String) : String :=
  "OR(" ++ String.intercalate ", " (memberIds.map recordIdFilter) ++ ")"

/-- The endpoint of the batched member fetch. -/
def guestsUrl (memberIds : List String) : String :=
  TABLE_NAME ++ "?filterByFormula=" ++ encodeURIComponent (guestFilter memberIds)

/-- One record of a batched PATCH payload. -/
structure RecordUpdate where
  id : String
  fields : List (String × AValue)
  deriving DecidableEq, Repr

/-- The JSON body of a batched PATCH request. -/
structure UpdatePayload where
  records : List RecordUpdate
  deriving DecidableEq, Repr

/-- One HTTP request the worker issues to the backing store. -/
structure AirtableCall where
  method : String
  endpoint : String
  body : Option UpdatePayload
  deriving DecidableEq, Repr

/-- The parts of a backing-store response the worker reads: the ok flag,
the optional records array, the optional fields object of a
single-record GET, the optional error.message of an error body, and the
raw text body. -/
structure AResponse where
  ok : Bool
  records : Option (List ARecord)
  fields : Option (List (String × AValue))
  errorMsg : Option String
  errorText : String
  deriving DecidableEq, Repr

/-- A backing store, modelled as an oracle from calls to responses. -/
def Store : Type := AirtableCall → AResponse

/-- The first call of the verify-name handler: the name search. -/
def verifySearchCall (name : String) : AirtableCall :=
  { method := "GET", endpoint := verifySearchUrl name, body := none }

/-- The second call of the verify-name handler: the family record GET. -/
def familyRecordCall (familyRecordId : String) : AirtableCall :=
  { method := "GET", endpoint := FAMILIES_TABLE_NAME ++ "/" ++ familyRecordId, body := none }

/-- The third call of the verify-name handler: the batched member
fetch. -/
def membersCall (memberIds : List String) : AirtableCall :=
  { method := "GET", endpoint := guestsUrl memberIds, body := none }

/-- The JSON outcomes of the verify-name handler. -/
inductive VerifyResult where
  | notFound (status : Nat) (error : String) (found : Bool)
  | errorResp (status : Nat) (error : String)
  | success (ok found : Bool) (guest : Guest) (familyMembers : List Guest)
      (familyEmail : Option String) (familyId : String) (familyNotes : Option String)
  deriving DecidableEq, Repr

/-- The POST /verify-name handler of the current worker, returning the
response together with the ordered list of backing-store calls it
issued. -/
def verifyName (store : Store) (name : String) : VerifyResult × List AirtableCall :=
  let call1 := verifySearchCall name
  let searchData := store call1
  match searchData.records with
  | none => (VerifyResult.notFound 404 "Sajnos ilyen nevű vendég nem található a listán" false, [call1])
  | some [] => (VerifyResult.notFound 404 "Sajnos ilyen nevű vendég nem található a listán" false, [call1])
  | some (guestRecord :: _) =>
    let guest := mapAirtableRecord guestRecord
    match getLinks guestRecord.fields "Family name" with
    | none => (VerifyResult.errorResp 500 "Guest does not have a family relation", [call1])
    | some [] => (VerifyResult.errorResp 500 "Guest does not have a family relation", [call1])
    | some (familyRecordId :: _) =>
      let call2 := familyRecordCall familyRecordId
      let familyRecordResponse := store call2
      if familyRecordResponse.ok = false then
        (VerifyResult.errorResp 500
          ("Sajnos nem sikerült a család adatait lekérdezni: " ++ familyRecordResponse.errorText),
          [call1, call2])
      else
        let ffields := familyRecordResponse.fields.getD []
        let familyEmail := getStr ffields "Email"
        let familyNotes := getStr ffields "Notes"
        match getLinks ffields "Members" with
        | none =>
          (VerifyResult.errorResp 500 "Sajnos a család tagjai nem találhatók a listán", [call1, call2])
        | some [] =>
          (VerifyResult.errorResp 500 "Sajnos a család tagjai nem találhatók a listán", [call1, call2])
        | some (m :: ms) =>
          let call3 := membersCall (m :: ms)
          let guestsResponse := store call3
          if guestsResponse.ok = false then
            (VerifyResult.errorResp 500 ("Failed to fetch guest records: " ++ guestsResponse.errorText),
              [call1, call2, call3])
          else
            match guestsResponse.records with
            | none =>
              (VerifyResult.errorResp 500 "No guest records found for family members",
                [call1, call2, call3])
            | some [] =>
              (VerifyResult.errorResp 500 "No guest records found for family members",
                [call1, call2, call3])
            | some (r0 :: rs) =>
              (VerifyResult.success true true guest ((r0 :: rs).map mapAirtableRecord)
                familyEmail familyRecordId familyNotes,
                [call1, call2, call3])

/-- The validated POST /rsvp request body of the current worker. -/
structure RSVPRequest where
  guestId : String
  attending : Option Bool
  email : Option String
  phone : Option String
  dietaryRestrictions : Option String
  notes : Option String
  szertartas : Option Bool
  lakodalom : Option Bool
  transfer : Option Bool
  familyEmail : Option String
  familyId : Option String
  familyNotes : Option String
  deriving DecidableEq, Repr

/-- The guest-table write payload fields built by the rsvp handler:
each key is added only when the matching request field is defined. -/
def rsvpGuestFields (r : RSVPRequest) : List (String × AValue) :=
  (match r.szertartas with
   | some b => [("Szertartas", AValue.bool b)]
   | none => []) ++
  (match r.lakodalom with
   | some b => [("Lakodalom", AValue.bool b)]
   | none => []) ++
  (match r.dietaryRestrictions with
   | some s => [("Dietary Restrictions", AValue.str s)]
   | none => []) ++
  (match r.transfer with
   | some b => [("Transfer", AValue.bool b)]
   | none => [])

/-- JS truthiness of an optional string: defined and non-empty. -/
def truthyStr : Option String → Bool
  | some s => s ≠ ""
  | none => false

/-- The family-table write payload fields of the rsvp handler: Email is
added only when familyEmail is truthy, Notes whenever familyNotes is
defined, even empty. -/
def rsvpFamilyFields (r : RSVPRequest) : List (String × AValue) :=
  (match r.familyEmail with
   | some s => if s = "" then [] else [("Email", AValue.str s)]
   | none => []) ++
  (match r.familyNotes with
   | some s => [("Notes", AValue.str s)]
   | none => [])

/-- The guest-table PATCH call of the rsvp handler. -/
def guestPatchCall (r : RSVPRequest) : AirtableCall :=
  { method := "PATCH", endpoint := TABLE_NAME,
    body := some { records := [{ id := r.guestId, fields := rsvpGuestFields r }] } }

/-- The family-table PATCH call of the rsvp handler. -/
def familyPatchCall (r : RSVPRequest) : AirtableCall :=
  { method := "PATCH", endpoint := FAMILIES_TABLE_NAME,
    body := some { records := [{ id := r.familyId.getD "", fields := rsvpFamilyFields r }] } }

/-- The JSON outcomes of the rsvp handler. -/
inductive RSVPResult where
  | done (success : Bool) (guest : Guest)
  | errorResp (status : Nat) (error : String)
  deriving DecidableEq, Repr

/-- JS `errorData.error?.message || fallback`. -/
def orElseMsg (m : Option String) (fallback : String) : String :=
  match m with
  | some s => if s = "" then fallback else s
  | none => fallback

/-- The POST /rsvp handler of the current worker, returning the response
together with the ordered list of backing-store calls it issued.  The
family update, when attempted, is fire-and-forget: its response is read
but a failure is only logged. -/
def rsvp (store : Store) (r : RSVPRequest) : RSVPResult × List AirtableCall :=
  let call1 := guestPatchCall r
  let updateResponse := store call1
  if updateResponse.ok = false then
    (RSVPResult.errorResp 500 (orElseMsg updateResponse.errorMsg "Failed to update guest"), [call1])
  else
    match updateResponse.records with
    | none => (RSVPResult.errorResp 500 "No records returned from update", [call1])
    | some [] => (RSVPResult.errorResp 500 "No records returned from update", [call1])
    | some (rec :: _) =>
      let updatedGuest := mapAirtableRecord rec
      if truthyStr r.familyId then
        if 0 < (rsvpFamilyFields r).length then
          let call2 := familyPatchCall r
          let _familyUpdateResponse := store call2
          (RSVPResult.done true updatedGuest, [call1, call2])
        else
          (RSVPResult.done true updatedGuest, [call1])
      else
        (RSVPResult.done true updatedGuest, [call1])

/-- Modelled from the spec: the backing-store batched update applies
only the keys present in the payload to the stored record (a
partial update, not a full replace).  Writes one key. -/
def setField (stored : List (String × AValue)) (k : String) (v : AValue) :
    List (String × AValue) :=
  match stored with
  | [] => [(k, v)]
  | (k0, v0) :: rest => if k0 = k then (k, v) :: rest else (k0, v0) :: setField rest k v

/-- Modelled from the spec: applies every payload key in order to the
stored record, leaving all other stored keys untouched. -/
def applyFields (stored : List (String × AValue)) :
    List (String × AValue) → List (String × AValue)
  | [] => stored
  | (k, v) :: rest => applyFields (setField stored k v) rest

/-- Case folding as done by the LOWER() formula function: per-character
lowercasing. -/
def foldCase (s : String) : String := String.mk (s.data.map Char.toLower)

/-- Expressions of the backing-store filter formula language, restricted
to the constructs this worker emits. -/
inductive FExpr where
  | lower (e : FExpr)
  | field (name : String)
  | lit (s : String)
  | recordId
  deriving Repr, DecidableEq

/-- Formulas of the backing-store filter language: equality, n-ary OR,
and substring search. -/
inductive Formula where
  | eq (a b : FExpr)
  | orN (args : List Formula)
  | search (needle hay : FExpr)
  deriving Repr

/-- The string value a field reference denotes on a record: a stored
string, else blank. -/
def fieldString (r : ARecord) (k : String) : String :=
  match lookupField r.fields k with
  | some (AValue.str s) => s
  | _ => ""

/-- Modelled from the spec: evaluation of a filter expression on one
record by the backing store (an external collaborator; reads support
equality, case-folding and OR composition). -/
def evalExpr (r : ARecord) : FExpr → String
  | FExpr.lower e => foldCase (evalExpr r e)
  | FExpr.field f => fieldString r f
  | FExpr.lit s => s
  | FExpr.recordId => r.id

/-- Whether the first character list is a leading block of the second. -/
def leadsChars : List Char → List Char → Bool
  | [], _ => true
  | _ :: _, [] => false
  | a :: as, b :: bs => a = b && leadsChars as bs

/-- Whether the first character list occurs contiguously in the second. -/
def infixOfChars (n : List Char) : List Char → Bool
  | [] => leadsChars n []
  | c :: rest => leadsChars n (c :: rest) || infixOfChars n rest

mutual

/-- Modelled from the spec: truth of a filter formula on one record. -/
def evalFormula (r : ARecord) : Formula → Bool
  | Formula.eq a b => evalExpr r a == evalExpr r b
  | Formula.orN args => evalOrList r args
  | Formula.search n h => infixOfChars (evalExpr r n).data (evalExpr r h).data

/-- Disjunction of a list of formulas on one record. -/
def evalOrList (r : ARecord) : List Formula → Bool
  | [] => false
  | f :: fs => evalFormula r f || evalOrList r fs

end

/-- Consumes an expected literal prefix, returning the remainder. -/
def dropLit : List Char → List Char → Option (List Char)
  | [], cs => some cs
  | _ :: _, [] => none
  | p :: ps, c :: cs => if c = p then dropLit ps cs else none

/-- Scans a double-quoted string literal body after the opening quote:
a doubled quote stands for one literal quote, a single quote closes. -/
def scanLit : List Char → Option (List Char × List Char)
  | [] => none
  | c :: rest =>
    if c = '"' then
      match rest with
      | [] => some ([], [])
      | c2 :: rest2 =>
        if c2 = '"' then
          match scanLit rest2 with
          | some (l, r) => some ('"' :: l, r)
          | none => none
        else some ([], rest)
    else
      match scanLit rest with
      | some (l, r) => some (c :: l, r)
      | none => none

/-- Scans a brace-delimited field name after the opening brace. -/
def scanField : List Char → Option (List Char × List Char)
  | [] => none
  | c :: rest =>
    if c = Char.ofNat 125 then some ([], rest)
    else
      match scanField rest with
      | some (l, r) => some (c :: l, r)
      | none => none

/-- Recursive-descent parse of a filter expression. -/
def parseFExpr : Nat → List Char → Option (FExpr × List Char)
  | 0, _ => none
  | fuel + 1, cs =>
    match dropLit "LOWER(".data cs with
    | some rest =>
      match parseFExpr fuel rest with
      | some (e, ')' :: rest2) => some (FExpr.lower e, rest2)
      | _ => none
    | none =>
      match dropLit "RECORD_ID()".data cs with
      | some rest => some (FExpr.recordId, rest)
      | none =>
        match cs with
        | c :: rest =>
          if c = Char.ofNat 123 then
            match scanField rest with
            | some (f, rest2) => some (FExpr.field (String.mk f), rest2)
            | none => none
          else if c = '"' then
            match scanLit rest with
            | some (l, rest2) => some (FExpr.lit (String.mk l), rest2)
            | none => none
          else none
        | [] => none

mutual

/-- Recursive-descent parse of a filter formula. -/
def parseFormulaAux : Nat → List Char → Option (Formula × List Char)
  | 0, _ => none
  | fuel + 1, cs =>
    match dropLit "OR(".data cs with
    | some rest =>
      match parseOrArgs fuel rest with
      | some (args, rest2) => some (Formula.orN args, rest2)
      | none => none
    | none =>
      match dropLit "SEARCH(".data cs with
      | some rest =>
        match parseFExpr (fuel + 1) rest with
        | some (a, rest2) =>
          match dropLit ", ".data rest2 with
          | some rest3 =>
            match parseFExpr (fuel + 1) rest3 with
            | some (b, ')' :: rest4) => some (Formula.search a b, rest4)
            | _ => none
          | none => none
        | none => none
      | none =>
        match parseFExpr (fuel + 1) cs with
        | some (a, rest) =>
          match dropLit " = ".data rest with
          | some rest2 =>
            match parseFExpr (fuel + 1) rest2 with
            | some (b, rest3) => some (Formula.eq a b, rest3)
            | none => none
          | none => none
        | none => none

/-- Parses the comma-separated argument list of OR( up to the closing
parenthesis. -/
def parseOrArgs : Nat → List Char → Option (List Formula × List Char)
  | 0, _ => none
  | fuel + 1, cs =>
    match parseFormulaAux fuel cs with
    | some (f, rest) =>
      match rest with
      | ')' :: rest2 => some ([f], rest2)
      | ',' :: ' ' :: rest2 =>
        match parseOrArgs fuel rest2 with
        | some (fs, rest3) => some (f :: fs, rest3)
        | none => none
      | _ => none
    | none => none

end

/-- Parses a complete filter formula string; trailing input is
rejected. -/
def parseFormula (s : String) : Option Formula :=
  match parseFormulaAux (s.data.length + 1) s.data with
  | some (f, []) => some f
  | _ => none

/-- The set of records the backing store returns for the verify-name
search: the table filtered by the parsed filter formula. -/
def verifySelect (table : List ARecord) (name : String) : Option (List ARecord) :=
  match parseFormula (verifyFilterFormula name) with
  | some f => some (table.filter (fun r => evalFormula r f))
  | none => none

/-- Whether a field is absent from a record or stored as null. -/
def absentOrNull (fs : List (String × AValue)) (k : String) : Bool :=
  match lookupField fs k with
  | none => true
  | some AValue.null => true
  | _ => false

/-- Whether a response carries a non-empty records array. -/
def nonemptyRecords (resp : AResponse) : Bool :=
  match resp.records with
  | some (_ :: _) => true
  | _ => false

/-- A successful response carrying a records array. -/
def respRecords (rs : List ARecord) : AResponse :=
  { ok := true, records := some rs, fields := none, errorMsg := none, errorText := "" }

/-- A successful response carrying a fields object. -/
def respFields (fs : List (String × AValue)) : AResponse :=
  { ok := true, records := none, fields := some fs, errorMsg := none, errorText := "" }

/-- A failed response. -/
def respFail : AResponse :=
  { ok := false, records := none, fields := none, errorMsg := none, errorText := "upstream failure" }

/-- A guest record whose family grouping lists two members. -/
def recAnna : ARecord :=
  { id := "g1", fields := [("Full name", AValue.str "Anna"), ("Family name", AValue.links ["fam1"])] }

/-- One family member record. -/
def recB : ARecord :=
  { id := "r1", fields := [("Full name", AValue.str "Béla")] }

/-- Family record fields listing two member identifiers. -/
def famFieldsC1 : List (String × AValue) := [("Members", AValue.links ["r1", "r2"])]

/-- A store whose batched member fetch returns one record although the
family lists two member identifiers. -/
def storeC1 : Store := fun c =>
  if c = verifySearchCall "Anna" then respRecords [recAnna]
  else if c = familyRecordCall "fam1" then respFields famFieldsC1
  else if c = membersCall ["r1", "r2"] then respRecords [recB]
  else respFail

/-- A guest record with no family grouping reference. -/
def recNoFam : ARecord := { id := "g2", fields := [("Full name", AValue.str "Zsofi")] }

/-- A store whose search finds a guest without a family relation. -/
def storeC6 : Store := fun c =>
  if c = verifySearchCall "Zsofi" then respRecords [recNoFam] else respFail

/-- A store whose searches match nothing. -/
def storeC7 : Store := fun _ => respRecords []

/-- The guest record echoed back by a successful guest update. -/
def updatedRec : ARecord :=
  { id := "g1", fields := [("Full name", AValue.str "Anna"), ("Szertartas", AValue.bool true)] }

/-- A store on which every guest-table PATCH succeeds and every other
call succeeds with empty fields. -/
def storeOkPatch : Store := fun c =>
  if c.method = "PATCH" ∧ c.endpoint = TABLE_NAME then respRecords [updatedRec]
  else respFields []

/-- A store on which the guest-table PATCH succeeds and every other
call, the family-table PATCH included, fails. -/
def storeC5 : Store := fun c =>
  if c.method = "PATCH" ∧ c.endpoint = TABLE_NAME then respRecords [updatedRec]
  else respFail

/-- An RSVP request with every optional field absent. -/
def blankRSVP : RSVPRequest :=
  { guestId := "", attending := none, email := none, phone := none,
    dietaryRestrictions := none, notes := none, szertartas := none, lakodalom := none,
    transfer := none, familyEmail := none, familyId := none, familyNotes := none }

/-- A request with a family identifier, no family email and an empty
family notes string. -/
def reqC4 : RSVPRequest :=
  { blankRSVP with guestId := "g1", familyId := some "fam1", familyNotes := some "" }

/-- A request with a family identifier and a non-empty family email. -/
def reqC4w : RSVPRequest :=
  { blankRSVP with guestId := "g1", familyId := some "fam1", familyEmail := some "anna@pelda.hu" }

/-- A request carrying a family identifier and family notes. -/
def reqC5 : RSVPRequest :=
  { blankRSVP with
      guestId := "g1"
      szertartas := some true
      familyId := some "fam1"
      familyNotes := some "Megjegyzes" }

/-- A request carrying only guestId and szertartas. -/
def reqC2 : RSVPRequest := { blankRSVP with guestId := "rec123", szertartas := some true }

/-- A stored guest record holding a dietary note. -/
def storedC2 : List (String × AValue) :=
  [("Full name", AValue.str "Anna"), ("Dietary Restrictions", AValue.str "vegetarianus")]

/-- A one-record guest table for the lookup semantics claims. -/
def tblC3 : List ARecord :=
  [{ id := "g1", fields := [("Full name", AValue.str "Anna")] }]

/-- A record every relevant field of which is stored as null. -/
def recC8 : ARecord :=
  { id := "g9",
    fields := [("Attending", AValue.null), ("Szertartas", AValue.null),
               ("Email", AValue.null), ("Dietary Restrictions", AValue.null)] }

theorem getBool_of_absentOrNull (fs : List (String × AValue)) (k : String) (d : Bool)
    (h : absentOrNull fs k = true) : getBool fs k d = d := by
  unfold absentOrNull at h
  unfold getBool
  cases hv : lookupField fs k with
  | none => simp
  | some v =>
    rw [hv] at h
    cases v <;> simp_all

theorem getStr_of_absentOrNull (fs : List (String × AValue)) (k : String)
    (h : absentOrNull fs k = true) : getStr fs k = none := by
  unfold absentOrNull at h
  unfold getStr
  cases hv : lookupField fs k with
  | none => simp
  | some v =>
    rw [hv] at h
    cases v <;> simp_all

/-- C8: for every backing-store record, the reshaping into the
client-facing Guest maps each absent or null store field to its defined
default — attending defaults to true; szertartas, lakodalom and transfer
each default to false — and a null string field becomes an absent
optional, never a null, in the client contract. -/
theorem mapAirtableRecord_defaults (r : ARecord) :
    (absentOrNull r.fields "Attending" = true → (mapAirtableRecord r).attending = true) ∧
    (absentOrNull r.fields "Szertartas" = true → (mapAirtableRecord r).szertartas = false) ∧
    (absentOrNull r.fields "Lakodalom" = true → (mapAirtableRecord r).lakodalom = false) ∧
    (absentOrNull r.fields "Transfer" = true → (mapAirtableRecord r).transfer = false) ∧
    (absentOrNull r.fields "Email" = true → (mapAirtableRecord r).email = none) ∧
    (absentOrNull r.fields "Phone" = true → (mapAirtableRecord r).phone = none) ∧
    (absentOrNull r.fields "Dietary Restrictions" = true →
      (mapAirtableRecord r).dietaryRestrictions = none) ∧
    (absentOrNull r.fields "Notes" = true → (mapAirtableRecord r).notes = none) ∧
    (absentOrNull r.fields "Surname" = true → (mapAirtableRecord r).surname = none) ∧
    (absentOrNull r.fields "Family ID" = true → (mapAirtableRecord r).familyId = none) ∧
    (absentOrNull r.fields "Submitted At" = true → (mapAirtableRecord r).submittedAt = none) ∧
    (absentOrNull r.fields "Full name" = true → absentOrNull r.fields "Name" = true →
      (mapAirtableRecord r).name = "") := by
  refine ⟨?_, ?_, ?_, ?_, ?_, ?_, ?_, ?_, ?_, ?_, ?_, ?_⟩ <;>
    intro h <;>
    simp [mapAirtableRecord, getBool_of_absentOrNull _ _ _ h, getStr_of_absentOrNull _ _ h]
  intro h2
  simp [getStr_of_absentOrNull _ _ h2]

/-- C8 witness: a record whose Attending, Szertartas, Email and dietary
fields are stored as null gets the defaults. -/
theorem mapAirtableRecord_defaults_witness :
    (mapAirtableRecord recC8).attending = true ∧
    (mapAirtableRecord recC8).szertartas = false ∧
    (mapAirtableRecord recC8).lakodalom = false ∧
    (mapAirtableRecord recC8).email = none ∧
    (mapAirtableRecord recC8).dietaryRestrictions = none :=
  ⟨(mapAirtableRecord_defaults recC8).1 (by decide),
   (mapAirtableRecord_defaults recC8).2.1 (by decide),
   (mapAirtableRecord_defaults recC8).2.2.1 (by decide),
   (mapAirtableRecord_defaults recC8).2.2.2.2.1 (by decide),
   (mapAirtableRecord_defaults recC8).2.2.2.2.2.2.1 (by decide)⟩

theorem lookupField_setField_ne (stored : List (String × AValue)) (k key : String)
    (v : AValue) (h : key ≠ k) :
    lookupField (setField stored k v) key = lookupField stored key := by
  induction stored with
  | nil => simp [setField, lookupField, Ne.symm h]
  | cons p rest ih =>
    obtain ⟨k0, v0⟩ := p
    by_cases hk : k0 = k
    · subst hk
      simp [setField, lookupField, Ne.symm h]
    · simp [setField, lookupField, hk, ih]

theorem lookupField_applyFields_of_not_mem (fs : List (String × AValue))
    (stored : List (String × AValue)) (key : String)
    (h : key ∉ fs.map Prod.fst) :
    lookupField (applyFields stored fs) key = lookupField stored key := by
  induction fs generalizing stored with
  | nil => simp [applyFields]
  | cons p rest ih =>
    obtain ⟨k, v⟩ := p
    simp only [List.map_cons, List.mem_cons, not_or] at h
    simp [applyFields, ih _ h.2, lookupField_setField_ne _ _ _ _ h.1]

theorem rsvpGuestFields_mem (r : RSVPRequest) (k : String)
    (h : k ∈ (rsvpGuestFields r).map Prod.fst) :
    (k = "Szertartas" ∧ r.szertartas ≠ none) ∨
    (k = "Lakodalom" ∧ r.lakodalom ≠ none) ∨
    (k = "Dietary Restrictions" ∧ r.dietaryRestrictions ≠ none) ∨
    (k = "Transfer" ∧ r.transfer ≠ none) := by
  cases hs : r.szertartas <;> cases hl : r.lakodalom <;>
    cases hd : r.dietaryRestrictions <;> cases ht : r.transfer <;>
    simp_all [rsvpGuestFields]

/-- C2: every field omitted from the submit-RSVP request body is absent
from the guest-table write payload; every key of the payload comes from
a field present in the request; in particular a request without
dietaryRestrictions produces a payload without the Dietary Restrictions
key, so applying the payload leaves a stored dietary note untouched. -/
theorem rsvp_partial_update (r : RSVPRequest) (stored : List (String × AValue)) :
    (r.szertartas = none → "Szertartas" ∉ (rsvpGuestFields r).map Prod.fst) ∧
    (r.lakodalom = none → "Lakodalom" ∉ (rsvpGuestFields r).map Prod.fst) ∧
    (r.dietaryRestrictions = none →
      "Dietary Restrictions" ∉ (rsvpGuestFields r).map Prod.fst) ∧
    (r.transfer = none → "Transfer" ∉ (rsvpGuestFields r).map Prod.fst) ∧
    (∀ k, k ∈ (rsvpGuestFields r).map Prod.fst →
      (k = "Szertartas" ∧ r.szertartas ≠ none) ∨
      (k = "Lakodalom" ∧ r.lakodalom ≠ none) ∨
      (k = "Dietary Restrictions" ∧ r.dietaryRestrictions ≠ none) ∨
      (k = "Transfer" ∧ r.transfer ≠ none)) ∧
    (r.dietaryRestrictions = none →
      lookupField (applyFields stored (rsvpGuestFields r)) "Dietary Restrictions" =
        lookupField stored "Dietary Restrictions") := by
  refine ⟨?_, ?_, ?_, ?_, rsvpGuestFields_mem r, ?_⟩
  · intro h
    cases hs : r.szertartas <;> cases hl : r.lakodalom <;>
      cases hd : r.dietaryRestrictions <;> cases ht : r.transfer <;>
      simp_all [rsvpGuestFields]
  · intro h
    cases hs : r.szertartas <;> cases hl : r.lakodalom <;>
      cases hd : r.dietaryRestrictions <;> cases ht : r.transfer <;>
      simp_all [rsvpGuestFields]
  · intro h
    cases hs : r.szertartas <;> cases hl : r.lakodalom <;>
      cases hd : r.dietaryRestrictions <;> cases ht : r.transfer <;>
      simp_all [rsvpGuestFields]
  · intro h
    cases hs : r.szertartas <;> cases hl : r.lakodalom <;>
      cases hd : r.dietaryRestrictions <;> cases ht : r.transfer <;>
      simp_all [rsvpGuestFields]
  · intro h
    refine lookupField_applyFields_of_not_mem _ _ _ ?_
    intro hmem
    rcases rsvpGuestFields_mem r _ hmem with ⟨hk, _⟩ | ⟨hk, _⟩ | ⟨hk, hne⟩ | ⟨hk, _⟩ <;>
      simp_all

/-- C2 witness: a request carrying only guestId and szertartas leaves a
stored dietary note untouched, and its payload has no Dietary
Restrictions key. -/
theorem rsvp_partial_update_witness :
    ("Dietary Restrictions" ∉ (rsvpGuestFields reqC2).map Prod.fst) ∧
    lookupField (applyFields storedC2 (rsvpGuestFields reqC2)) "Dietary Restrictions" =
      lookupField storedC2 "Dietary Restrictions" :=
  ⟨(rsvp_partial_update reqC2 storedC2).2.2.1 (by decide),
   (rsvp_partial_update reqC2 storedC2).2.2.2.2.2 (by decide)⟩

theorem rsvpFamilyFields_ne_nil_iff (r : RSVPRequest) :
    rsvpFamilyFields r ≠ [] ↔
      (truthyStr r.familyEmail = true ∨ r.familyNotes ≠ none) := by
  cases he : r.familyEmail with
  | none => cases hn : r.familyNotes <;> simp [rsvpFamilyFields, truthyStr, he, hn]
  | some s =>
    by_cases hs : s = "" <;>
      cases hn : r.familyNotes <;>
      simp [rsvpFamilyFields, truthyStr, he, hn, hs]

/-- C4 counterexample: a request with a family identifier, no family
email and an empty family notes string — both family-level fields empty
in the sense of the claim — still issues a family-table write when the
guest update succeeds. -/
theorem rsvp_family_write_counterexample :
    reqC4.familyEmail = none ∧ reqC4.familyNotes = some "" ∧
    ((rsvp storeOkPatch reqC4).2.any
      (fun c => c.method == "PATCH" && c.endpoint == FAMILIES_TABLE_NAME)) = true := by
  decide

/-- C4 amended: when the guest-record update succeeds, a second update
call against the family table is issued exactly when the family
identifier is a non-empty string and either the family email is a
non-empty string or the family notes field is present, possibly
empty. -/
theorem rsvp_family_write_iff (store : Store) (r : RSVPRequest)
    (h1 : (store (guestPatchCall r)).ok = true)
    (h2 : nonemptyRecords (store (guestPatchCall r)) = true) :
    ((rsvp store r).2.any
        (fun c => c.method == "PATCH" && c.endpoint == FAMILIES_TABLE_NAME)) = true ↔
      (truthyStr r.familyId = true ∧
        (truthyStr r.familyEmail = true ∨ r.familyNotes ≠ none)) := by
  rcases hrec : (store (guestPatchCall r)).records with _ | ls
  · simp [nonemptyRecords, hrec] at h2
  · rcases ls with _ | ⟨rec, rest⟩
    · simp [nonemptyRecords, hrec] at h2
    · by_cases hfam : truthyStr r.familyId = true
      · by_cases hff : rsvpFamilyFields r ≠ []
        · have hlen : 0 < (rsvpFamilyFields r).length := List.length_pos.mpr hff
          rw [rsvpFamilyFields_ne_nil_iff] at hff
          simp only [rsvp, h1, hrec, hfam, hlen]
          simp [guestPatchCall, familyPatchCall, TABLE_NAME, FAMILIES_TABLE_NAME, hff]
        · push_neg at hff
          have hlen : ¬ 0 < (rsvpFamilyFields r).length := by simp [hff]
          have hff2 := (not_iff_not.mpr (rsvpFamilyFields_ne_nil_iff r)).mp (by simp [hff])
          simp only [rsvp, h1, hrec, hfam, hlen]
          simp [guestPatchCall, TABLE_NAME, FAMILIES_TABLE_NAME, hff2]
      · have hfam2 : truthyStr r.familyId = false := by
          cases hx : truthyStr r.familyId
          · rfl
          · exact absurd hx hfam
        simp only [rsvp, h1, hrec, hfam2]
        simp [guestPatchCall, TABLE_NAME, FAMILIES_TABLE_NAME, hfam2]

/-- C4 witness: a request with family identifier and non-empty family
email does produce the family-table write. -/
theorem rsvp_family_write_iff_witness :
    ((rsvp storeOkPatch reqC4w).2.any
      (fun c => c.method == "PATCH" && c.endpoint == FAMILIES_TABLE_NAME)) = true :=
  (rsvp_family_write_iff storeOkPatch reqC4w (by decide) (by decide)).mpr (by decide)

/-- C5: when the guest update succeeds and the attempted family update
fails, the rsvp operation still returns success with the updated guest;
the family failure is not propagated. -/
theorem rsvp_family_failure_swallowed (store : Store) (r : RSVPRequest)
    (rec : ARecord) (rest : List ARecord)
    (hfam : truthyStr r.familyId = true)
    (hff : rsvpFamilyFields r ≠ [])
    (h1 : (store (guestPatchCall r)).ok = true)
    (h2 : (store (guestPatchCall r)).records = some (rec :: rest))
    (_h3 : (store (familyPatchCall r)).ok = false) :
    (rsvp store r).1 = RSVPResult.done true (mapAirtableRecord rec) ∧
    (rsvp store r).2 = [guestPatchCall r, familyPatchCall r] := by
  have hlen : 0 < (rsvpFamilyFields r).length := List.length_pos.mpr hff
  simp [rsvp, h1, h2, hfam, hlen]

/-- C5 witness: a concrete store where the guest PATCH succeeds and the
family PATCH fails. -/
theorem rsvp_family_failure_swallowed_witness :
    (rsvp storeC5 reqC5).1 = RSVPResult.done true (mapAirtableRecord updatedRec) ∧
    (rsvp storeC5 reqC5).2 = [guestPatchCall reqC5, familyPatchCall reqC5] :=
  rsvp_family_failure_swallowed storeC5 reqC5 updatedRec []
    (by decide) (by decide) (by decide) (by decide) (by decide)

/-- C7: for every non-empty name whose search matches zero guests,
verify-name answers 404 with found false, issues exactly the one search
call, and issues no write call. -/
theorem verifyName_notFound (store : Store) (name : String) (_hname : name ≠ "")
    (h : (store (verifySearchCall name)).records = none ∨
      (store (verifySearchCall name)).records = some []) :
    (verifyName store name).1 =
      VerifyResult.notFound 404 "Sajnos ilyen nevű vendég nem található a listán" false ∧
    (verifyName store name).2 = [verifySearchCall name] ∧
    ((verifyName store name).2.all (fun c => c.method == "GET")) = true := by
  rcases h with h | h <;>
    refine ⟨?_, ?_, ?_⟩ <;>
    simp only [verifyName, h] <;>
    simp [verifySearchCall]

/-- C7 witness: a store matching nothing. -/
theorem verifyName_notFound_witness :
    (verifyName storeC7 "Ismeretlen").1 =
      VerifyResult.notFound 404 "Sajnos ilyen nevű vendég nem található a listán" false ∧
    (verifyName storeC7 "Ismeretlen").2 = [verifySearchCall "Ismeretlen"] ∧
    ((verifyName storeC7 "Ismeretlen").2.all (fun c => c.method == "GET")) = true :=
  verifyName_notFound storeC7 "Ismeretlen" (by decide) (Or.inr (by decide))

/-- C9: on every store and every name, every backing-store call the
verify-name handler issues is a GET; none is a POST or a PATCH. -/
theorem verifyName_read_only (store : Store) (name : String) :
    ((verifyName store name).2.all
      (fun c => c.method == "GET" && c.method != "POST" && c.method != "PATCH")) = true := by
  simp only [verifyName]
  repeat' split
  all_goals simp [verifySearchCall, familyRecordCall, membersCall]

/-- C6: when the matched guest has no family grouping reference, or the
family record resolves with a missing or empty member list, verify-name
answers a 500 server error carrying only an error message. -/
theorem verifyName_integrity_error (store : Store) (name : String)
    (gr : ARecord) (grs : List ARecord)
    (h1 : (store (verifySearchCall name)).records = some (gr :: grs))
    (h2 : getLinks gr.fields "Family name" = none ∨
      getLinks gr.fields "Family name" = some [] ∨
      (∃ famId famIds, getLinks gr.fields "Family name" = some (famId :: famIds) ∧
        (store (familyRecordCall famId)).ok = true ∧
        (getLinks ((store (familyRecordCall famId)).fields.getD []) "Members" = none ∨
          getLinks ((store (familyRecordCall famId)).fields.getD []) "Members" = some []))) :
    ∃ msg, (verifyName store name).1 = VerifyResult.errorResp 500 msg := by
  rcases h2 with h | h | ⟨famId, famIds, hf, hok, hm | hm⟩
  · exact ⟨"Guest does not have a family relation", by simp [verifyName, h1, h]⟩
  · exact ⟨"Guest does not have a family relation", by simp [verifyName, h1, h]⟩
  · exact ⟨"Sajnos a család tagjai nem találhatók a listán",
      by simp [verifyName, h1, hf, hok, hm]⟩
  · exact ⟨"Sajnos a család tagjai nem találhatók a listán",
      by simp [verifyName, h1, hf, hok, hm]⟩

/-- C6 witness: a matched guest record without a family relation. -/
theorem verifyName_integrity_error_witness :
    ∃ msg, (verifyName storeC6 "Zsofi").1 = VerifyResult.errorResp 500 msg :=
  verifyName_integrity_error storeC6 "Zsofi" recNoFam [] (by decide) (Or.inl (by decide))

/-- C1 counterexample: the family record lists two member identifiers,
the batched member fetch returns a single record, and verify-name
returns success with the one-element partial list instead of failing. -/
theorem verifyName_partial_members_counterexample :
    getLinks famFieldsC1 "Members" = some ["r1", "r2"] ∧
    (storeC1 (membersCall ["r1", "r2"])).records = some [recB] ∧
    (verifyName storeC1 "Anna").1 =
      VerifyResult.success true true (mapAirtableRecord recAnna) [mapAirtableRecord recB]
        none "fam1" none := by
  decide

/-- C1 amended: the familyMembers list verify-name returns has exactly
one entry per record the batched member fetch actually returned, which
may be fewer than the member-identifier list; the handler fails only
when that fetch returns an empty or missing records array. -/
theorem verifyName_members_cardinality (store : Store) (name : String)
    (gr : ARecord) (grs : List ARecord) (famId : String) (famIds : List String)
    (m : String) (ms : List String)
    (h1 : (store (verifySearchCall name)).records = some (gr :: grs))
    (h2 : getLinks gr.fields "Family name" = some (famId :: famIds))
    (h3 : (store (familyRecordCall famId)).ok = true)
    (h4 : getLinks ((store (familyRecordCall famId)).fields.getD []) "Members" = some (m :: ms))
    (h5 : (store (membersCall (m :: ms))).ok = true) :
    (∀ r0 rs, (store (membersCall (m :: ms))).records = some (r0 :: rs) →
      (verifyName store name).1 =
        VerifyResult.success true true (mapAirtableRecord gr)
          ((r0 :: rs).map mapAirtableRecord)
          (getStr ((store (familyRecordCall famId)).fields.getD []) "Email") famId
          (getStr ((store (familyRecordCall famId)).fields.getD []) "Notes")) ∧
    (((store (membersCall (m :: ms))).records = none ∨
      (store (membersCall (m :: ms))).records = some []) →
      (verifyName store name).1 =
        VerifyResult.errorResp 500 "No guest records found for family members") := by
  constructor
  · intro r0 rs h6
    simp [verifyName, h1, h2, h3, h4, h5, h6]
  · rintro (h6 | h6) <;> simp [verifyName, h1, h2, h3, h4, h5, h6]

/-- C1 witness: on the concrete partial store the returned familyMembers
list matches the records the member fetch returned. -/
theorem verifyName_members_cardinality_witness :
    (verifyName storeC1 "Anna").1 =
      VerifyResult.success true true (mapAirtableRecord recAnna)
        ([recB].map mapAirtableRecord)
        (getStr ((storeC1 (familyRecordCall "fam1")).fields.getD []) "Email") "fam1"
        (getStr ((storeC1 (familyRecordCall "fam1")).fields.getD []) "Notes") :=
  (verifyName_members_cardinality storeC1 "Anna" recAnna [] "fam1" [] "r1" ["r2"]
    (by decide) (by decide) (by decide) (by decide) (by decide)).1 recB [] (by decide)

theorem scanLit_escQuotes (l : List Char) :
    scanLit (escQuotes l ++ ['"', ')']) = some (l, [')']) := by
  induction l with
  | nil => simp [escQuotes, scanLit]
  | cons c l ih =>
    by_cases hc : c = '"'
    · subst hc
      simp [escQuotes, scanLit, ih]
    · simp only [escQuotes, if_neg hc, List.cons_append]
      rw [scanLit.eq_def]
      simp [hc, ih]

theorem parseAux_template (f : Nat) (l : List Char) :
    parseFormulaAux (f + 2)
      ('L' :: 'O' :: 'W' :: 'E' :: 'R' :: '(' :: Char.ofNat 123 :: 'F' :: 'u' :: 'l' :: 'l' :: ' ' :: 'n' :: 'a' :: 'm' :: 'e' :: Char.ofNat 125 :: ')' :: ' ' :: '=' :: ' ' :: 'L' :: 'O' :: 'W' :: 'E' :: 'R' :: '(' :: '"' :: (escQuotes l ++ ['"', ')'])) =
      some (Formula.eq (FExpr.lower (FExpr.field "Full name"))
        (FExpr.lower (FExpr.lit (String.mk l))), []) := by
  simp [parseFormulaAux, parseFExpr, dropLit, scanField, scanLit_escQuotes]

theorem verifyFilterFormula_data (name : String) :
    (verifyFilterFormula name).data =
      'L' :: 'O' :: 'W' :: 'E' :: 'R' :: '(' :: Char.ofNat 123 :: 'F' :: 'u' :: 'l' :: 'l' :: ' ' :: 'n' :: 'a' :: 'm' :: 'e' :: Char.ofNat 125 :: ')' :: ' ' :: '=' :: ' ' :: 'L' :: 'O' :: 'W' :: 'E' :: 'R' :: '(' :: '"' :: (escQuotes (jsTrim name).data ++ ['"', ')']) := by
  simp only [verifyFilterFormula, escapedName, String.data_append]
  rfl

theorem parseVerify_formula (name : String) :
    parseFormula (verifyFilterFormula name) =
      some (Formula.eq (FExpr.lower (FExpr.field "Full name"))
        (FExpr.lower (FExpr.lit (jsTrim name)))) := by
  unfold parseFormula
  rw [verifyFilterFormula_data]
  have hlen : ('L' :: 'O' :: 'W' :: 'E' :: 'R' :: '(' :: Char.ofNat 123 :: 'F' :: 'u' :: 'l' :: 'l' :: ' ' :: 'n' :: 'a' :: 'm' :: 'e' :: Char.ofNat 125 :: ')' :: ' ' :: '=' :: ' ' :: 'L' :: 'O' :: 'W' :: 'E' :: 'R' :: '(' :: '"' :: (escQuotes (jsTrim name).data ++ ['"', ')'])).length
      = (escQuotes (jsTrim name).data).length + 30 := by
    simp
  rw [hlen]
  have hfuel : (escQuotes (jsTrim name).data).length + 30 + 1 =
      ((escQuotes (jsTrim name).data).length + 29) + 2 := by omega
  rw [hfuel, parseAux_template]

/-- C10: for every input name, the filter formula verify-name sends
parses, under the backing-store formula grammar, to exactly the fixed
template — an equality of LOWER of the Full name field and LOWER of a
string literal — whose literal is exactly the trimmed input: no input
can change the structure of the formula. -/
theorem verifyFilterFormula_injection_free (name : String) :
    parseFormula (verifyFilterFormula name) =
      some (Formula.eq (FExpr.lower (FExpr.field "Full name"))
        (FExpr.lower (FExpr.lit (jsTrim name)))) :=
  parseVerify_formula name

/-- C3 amended: the guests the backing store selects for the verify-name
filter are exactly those whose Full name field equals the trimmed input
under case folding — an exact match, not a substring match. -/
theorem verifySelect_spec (table : List ARecord) (name : String) :
    verifySelect table name =
      some (table.filter
        (fun r => foldCase (fieldString r "Full name") == foldCase (jsTrim name))) := by
  unfold verifySelect
  rw [parseVerify_formula]
  simp [evalFormula, evalExpr]

/-- C3 counterexample: with the input distinct from the stored name by a
trailing space, the lookup still selects the guest, so the selected set
differs from the set of guests whose name equals the raw input under
case folding. -/
theorem verifySelect_untrimmed_counterexample :
    verifySelect tblC3 "Anna " ≠
      some (tblC3.filter
        (fun r => foldCase (fieldString r "Full name") == foldCase "Anna ")) := by
  decide
